import Mathlib

/-!
# Posts repository (`src/repositories/posts.repository.js`)

A shallow embedding of the six exported operations of the posts repository
(`create`, `remove`, `retrieveOne`, `retrieveAll`, `retrieveAllTop`,
`retrieveAllTag`) and of the storage gateway they talk to.

* The relational store is a record of row lists.
* Every storage call of an operation either resolves or rejects; which one is
  fixed by a `Gateway` record, one field per call.
* An operation is a function from a `World` (store, transaction status and the
  trace of what happened so far) to an `Outcome`: the async function either
  returns or throws, and in both cases leaves a world behind.
* The caller's callback `result(error, success)` is recorded in the trace.
-/

namespace PostsRepository

/-! ## Data model -/

/-- Row of the posts table. -/
structure Post where
  id : Nat
  title : String
  body : String
  user_id : Nat
  views : Nat
  created_at : Nat
  updated_at : Nat
deriving DecidableEq, Repr

/-- Row of the tags table. -/
structure Tag where
  id : Nat
  tagname : String
  description : String
deriving DecidableEq, Repr

/-- Association row linking a post to a tag. -/
structure PostTag where
  post_id : Nat
  tag_id : Nat
deriving DecidableEq, Repr

/-- Row of the answers table. -/
structure Answer where
  id : Nat
  post_id : Nat
deriving DecidableEq, Repr

/-- Row of the comments table. -/
structure Comment where
  id : Nat
  post_id : Nat
deriving DecidableEq, Repr

/-- Row of the users table, read-only for this repository. -/
structure User where
  id : Nat
  username : String
  gravatar : String
deriving DecidableEq, Repr

/-- Modelled from the spec: the tables behind the models of `../models/sequelize`
(not among the sources), with the columns section 3 of the spec lists. -/
structure Store where
  posts : List Post
  tags : List Tag
  postTags : List PostTag
  answers : List Answer
  comments : List Comment
  users : List User
deriving DecidableEq, Repr

/-- The argument `newPost` of `create`. -/
structure NewPost where
  title : String
  body : String
  user_id : Nat
  tagname : String
deriving DecidableEq, Repr

/-- One row of a read query: the thirteen projected columns of the `attributes`
list. A column is `none` when the database returns NULL for it. -/
structure PostView where
  id : Option Nat
  user_id : Option Nat
  tag_id : Option Nat
  answer_count : Nat
  comment_count : Nat
  gravatar : Option String
  username : Option String
  title : Option String
  body : Option String
  tagname : Option String
  created_at : Option Nat
  updated_at : Option Nat
  views : Option Nat
deriving DecidableEq, Repr

/-! ## Response envelope and callback -/

/-- The `data` member of a response envelope. -/
inductive Data where
  | null
  | undefined
  | postId (id : Nat)
  | row (r : PostView)
  | rows (rs : List PostView)
deriving DecidableEq, Repr

/-- The response envelope. `status` is `none` when the value passed for it is
`undefined`. -/
structure Response where
  success : Bool
  status : Option Int
  message : String
  data : Data
deriving DecidableEq, Repr

/-- Modelled from the spec: `responseHandler` of `../helpers/responseHelpers` (not
among the sources) builds the envelope `{ success, status, message, data }` from
its four arguments. -/
def responseHandler (success : Bool) (status : Option Int) (message : String)
    (data : Data) : Response :=
  { success := success, status := status, message := message, data := data }

/-- An error object raised by the storage layer. `statusCode` is `none` when the
object has no such member. -/
structure StorageError where
  statusCode : Option Int
  message : String
deriving DecidableEq, Repr

/-- The value a rejected storage promise carries: `none` is a falsy value, `some e`
an error object. -/
abbrev Rejection := Option StorageError

/-- How one storage call settles. -/
inductive Reply where
  | ok
  | rejects (error : Rejection)
deriving DecidableEq, Repr

/-- The behaviour of the storage gateway during one operation: every storage call
resolves or rejects independently of the others. `clock` is the time the database
stamps on a row it creates. -/
structure Gateway where
  beginTx : Reply
  postInsert : Reply
  tagFindOrCreate : Reply
  postTagInsert : Reply
  postTagDelete : Reply
  answerDelete : Reply
  commentDelete : Reply
  postDelete : Reply
  commit : Reply
  rollback : Reply
  increment : Reply
  findOne : Reply
  findAll : Reply
  clock : Nat
deriving DecidableEq, Repr

/-- The ordering of a `findAll` query. -/
inductive QueryOrder where
  | createdDesc
  | topDesc
deriving DecidableEq, Repr

/-- A statement sent to the storage gateway. -/
inductive Stmt where
  | beginTx
  | commit
  | rollback
  | insertPost (title body : String) (user_id : Nat)
  | findOrCreateTag (tagname description : String)
  | insertPostTag (post_id tag_id : Nat)
  | deletePostTags (post_id : Nat)
  | deleteAnswers (post_id : Nat)
  | deleteComments (post_id : Nat)
  | deletePost (id : Nat)
  | incrementViews (id : Nat)
  | findOne (id : Nat)
  | findAll (order : QueryOrder) (tagname : Option String)
deriving DecidableEq, Repr

/-- What an observer of one operation sees, in order: the statements sent to the
gateway (with whether they resolved) and the invocations of the callback
`result(error, success)`. -/
inductive Event where
  | stmt (s : Stmt) (resolved : Bool)
  | callback (error : Option Response) (success : Option Response)
deriving DecidableEq, Repr

/-- Status of the transaction an operation opens with `db.transaction()`. -/
inductive TxStatus where
  | idle
  | active
  | committed
  | rolledBack
deriving DecidableEq, Repr

/-- The state an operation runs in. -/
structure World where
  db : Store
  tx : TxStatus
  trace : List Event
deriving DecidableEq, Repr

/-- The world before an operation starts. -/
def World.init (db : Store) : World :=
  { db := db, tx := .idle, trace := [] }

/-- The invocations of the callback, in order, as pairs `(error, success)`. -/
def World.calls (w : World) : List (Option Response × Option Response) :=
  w.trace.filterMap fun e =>
    match e with
    | .callback err ok => some (err, ok)
    | .stmt _ _ => none

/-- Whether the local variable `transaction` of `create` and `remove` holds a
handle: it is assigned exactly when `db.transaction()` has resolved. -/
def World.transaction (w : World) : Bool :=
  match w.tx with
  | .idle => false
  | _ => true

/-! ## Execution of async code -/

/-- How a piece of async code ends: it yields a value, or it throws (for the
whole operation: the returned promise rejects). -/
inductive Outcome (α : Type) where
  | value (a : α) (w : World)
  | thrown (w : World)
deriving Repr

/-- The world an outcome leaves behind. -/
def Outcome.world {α : Type} : Outcome α → World
  | .value _ w => w
  | .thrown w => w

/-- Whether the outcome is an exception that escaped. -/
def Outcome.escaped {α : Type} : Outcome α → Bool
  | .value _ _ => false
  | .thrown _ => true

/-- Async code over a world. -/
def Run (α : Type) : Type := World → Outcome α

/-- Code that yields `a` without an effect. -/
def Run.pure {α : Type} (a : α) : Run α := fun w => .value a w

/-- Sequencing: an exception of the first part skips the second. -/
def Run.bind {α β : Type} (m : Run α) (f : α → Run β) : Run β := fun w =>
  match m w with
  | .value a w1 => f a w1
  | .thrown w1 => .thrown w1

instance : Monad Run where
  pure := Run.pure
  bind := Run.bind

/-- A JavaScript exception (a `TypeError`, or a rejection that is awaited without
a handler). -/
def throwJs {α : Type} : Run α := fun w => .thrown w

/-- The statement `try { body } catch (error) { handler }`. -/
def tryCatch {α : Type} (body handler : Run α) : Run α := fun w =>
  match body w with
  | .value a w1 => .value a w1
  | .thrown w1 => handler w1

/-- Appends an event to the trace. -/
def emit (e : Event) : Run Unit := fun w =>
  .value () { w with trace := w.trace ++ [e] }

/-- The caller's callback `result(error, success)`. Its return value is not a
value any branch can use: it is modelled as `undefined`. -/
def result (error success : Option Response) : Run Unit :=
  emit (.callback error success)

/-- A settled storage promise. -/
inductive Settled (α : Type) where
  | resolved (a : α)
  | rejected (error : Rejection)
deriving Repr

/-- The expression `await promise`: a rejection is thrown. -/
def await {α : Type} (promise : Run (Settled α)) : Run α := fun w =>
  match promise w with
  | .value (.resolved a) w1 => .value a w1
  | .value (.rejected _) w1 => .thrown w1
  | .thrown w1 => .thrown w1

/-- The expression `await promise.catch(handler)` for a handler that ends in
`return null` or returns what the callback returns: a rejection runs the handler
and the awaited value is then `none` (`null` or `undefined`). -/
def awaitCatch {α : Type} (promise : Run (Settled α)) (handler : Rejection → Run Unit) :
    Run (Option α) := fun w =>
  match promise w with
  | .value (.resolved a) w1 => .value (some a) w1
  | .value (.rejected error) w1 =>
    match handler error w1 with
    | .value _ w2 => .value none w2
    | .thrown w2 => .thrown w2
  | .thrown w1 => .thrown w1

/-- A storage call: the statement is recorded; when the gateway resolves it, its
effect on the store is applied and its value returned. -/
def storageCall {α : Type} (reply : Reply) (s : Stmt) (effect : Store → α × Store) :
    Run (Settled α) := fun w =>
  match reply with
  | .ok =>
    let r := effect w.db
    .value (.resolved r.1) { w with db := r.2, trace := w.trace ++ [.stmt s true] }
  | .rejects error =>
    .value (.rejected error) { w with trace := w.trace ++ [.stmt s false] }

/-! ## The storage gateway

Modelled from the spec: the storage gateway (`../../config/db.config` and the
models of `../models/sequelize`, not among the sources) with the interface of
section 6: `beginTransaction`, `commit`, `rollback` and the entity-scoped calls.
Every statement of `create` and `remove` is sent without a `transaction` option
(lines 18-47 and 75-81): it runs outside the transaction the operation has
opened and takes effect on the store at once. Commit and rollback settle that
transaction and leave the store as the statements left it. -/

/-- Identifier the database generates for a new post: larger than every id in use. -/
def Store.nextPostId (s : Store) : Nat :=
  (s.posts.map (fun p => p.id)).foldr max 0 + 1

/-- Identifier the database generates for a new tag. -/
def Store.nextTagId (s : Store) : Nat :=
  (s.tags.map (fun t => t.id)).foldr max 0 + 1

/-- Effect of `PostsModelSequelize.create({ title, body, user_id })`. -/
def Store.insertPost (clock : Nat) (title body : String) (user_id : Nat) (s : Store) :
    Post × Store :=
  let post : Post :=
    { id := s.nextPostId, title := title, body := body, user_id := user_id, views := 0,
      created_at := clock, updated_at := clock }
  (post, { s with posts := s.posts ++ [post] })

/-- Effect of `TagsModelSequelize.findOrCreate({ where: { tagname }, defaults })`:
the tag of that name when there is one, otherwise a new tag with the default
description. The second component tells whether the tag was created. -/
def Store.findOrCreateTag (tagname description : String) (s : Store) :
    (Tag × Bool) × Store :=
  match s.tags.find? (fun t => t.tagname = tagname) with
  | some t => ((t, false), s)
  | none =>
    let t : Tag := { id := s.nextTagId, tagname := tagname, description := description }
    ((t, true), { s with tags := s.tags ++ [t] })

/-- Effect of `PostTagModelSequelize.create({ post_id, tag_id })`. -/
def Store.insertPostTag (post_id tag_id : Nat) (s : Store) : Unit × Store :=
  ((), { s with postTags := s.postTags ++ [{ post_id := post_id, tag_id := tag_id }] })

/-- Effect of `PostTagModelSequelize.destroy({ where: { post_id: id } })`. -/
def Store.deletePostTags (id : Nat) (s : Store) : Unit × Store :=
  ((), { s with postTags := s.postTags.filter (fun r => r.post_id ≠ id) })

/-- Effect of `AnswersModelSequelize.destroy({ where: { post_id: id } })`. -/
def Store.deleteAnswers (id : Nat) (s : Store) : Unit × Store :=
  ((), { s with answers := s.answers.filter (fun r => r.post_id ≠ id) })

/-- Effect of `CommentsModelSequelize.destroy({ where: { post_id: id } })`. -/
def Store.deleteComments (id : Nat) (s : Store) : Unit × Store :=
  ((), { s with comments := s.comments.filter (fun r => r.post_id ≠ id) })

/-- Effect of `PostsModelSequelize.destroy({ where: { id } })`. -/
def Store.deletePost (id : Nat) (s : Store) : Unit × Store :=
  ((), { s with posts := s.posts.filter (fun r => r.id ≠ id) })

/-- Effect of `PostsModelSequelize.increment('views', { by: 1, where: { id } })`. -/
def Store.incrementViews (id : Nat) (s : Store) : Unit × Store :=
  ((), { s with posts := s.posts.map (fun p =>
    if p.id = id then { p with views := p.views + 1 } else p) })

/-- The required joins of the read queries for one post: every pair of a tag
attached to the post through a `PostTag` row (and carrying `tagname`, when the
query filters on it) and of the user owning the post. -/
def Store.joined (s : Store) (tagname : Option String) (p : Post) : List (Post × Tag × User) :=
  (s.postTags.filter (fun pt => pt.post_id = p.id)).flatMap fun pt =>
    (s.tags.filter (fun t => decide (t.id = pt.tag_id) &&
        (match tagname with
         | some n => decide (t.tagname = n)
         | none => true))).flatMap fun t =>
      (s.users.filter (fun u => u.id = p.user_id)).map fun u => (p, t, u)

/-- The aggregate `COUNT(DISTINCT(answers.id))` over the optional join. -/
def Store.answerCount (s : Store) (postId : Nat) : Nat :=
  ((s.answers.filter (fun a => a.post_id = postId)).map (fun a => a.id)).dedup.length

/-- The aggregate `COUNT(DISTINCT(comments.id))` over the optional join. -/
def Store.commentCount (s : Store) (postId : Nat) : Nat :=
  ((s.comments.filter (fun c => c.post_id = postId)).map (fun c => c.id)).dedup.length

/-- The projected columns for a post joined to a tag and a user. -/
def Store.view (s : Store) (r : Post × Tag × User) : PostView :=
  { id := some r.1.id, user_id := some r.1.user_id, tag_id := some r.2.1.id,
    answer_count := s.answerCount r.1.id, comment_count := s.commentCount r.1.id,
    gravatar := some r.2.2.gravatar, username := some r.2.2.username,
    title := some r.1.title, body := some r.1.body, tagname := some r.2.1.tagname,
    created_at := some r.1.created_at, updated_at := some r.1.updated_at,
    views := some r.1.views }

/-- The row an aggregate query without grouping returns when no joined row
matches: every plain column is NULL and every count is zero. -/
def nullView : PostView :=
  { id := none, user_id := none, tag_id := none, answer_count := 0, comment_count := 0,
    gravatar := none, username := none, title := none, body := none, tagname := none,
    created_at := none, updated_at := none, views := none }

/-- The joined rows the single-row read of `retrieveOne` aggregates over: the
posts with the given id, joined to their tags and their user. -/
def Store.matching (s : Store) (postId : Nat) : List (Post × Tag × User) :=
  (s.posts.filter (fun p => p.id = postId)).flatMap (s.joined none)

/-- Value of the `findOne` query of `retrieveOne` (lines 117-158): its `attributes`
hold the aggregates `COUNT(DISTINCT(...))` and, unlike the `findAll` queries, its
options have no `group`, so the query yields exactly one row: the NULL row when
nothing matches. That row is the one line 164 tests with
`isNull(queryResult.dataValues.id)`. -/
def Store.findOnePost (postId : Nat) (s : Store) : PostView × Store :=
  match s.matching postId with
  | [] => (nullView, s)
  | r :: _ => (s.view r, s)

/-- The order of `order: [['created_at', 'DESC']]`. -/
def newerFirst (a b : PostView) : Prop := b.created_at.getD 0 ≤ a.created_at.getD 0

instance : DecidableRel newerFirst := fun a b =>
  inferInstanceAs (Decidable (b.created_at.getD 0 ≤ a.created_at.getD 0))

/-- The order of `answer_count DESC, comment_count DESC`. -/
def topFirst (a b : PostView) : Prop :=
  b.answer_count < a.answer_count ∨
    (b.answer_count = a.answer_count ∧ b.comment_count ≤ a.comment_count)

instance : DecidableRel topFirst := fun a b =>
  inferInstanceAs (Decidable (b.answer_count < a.answer_count ∨
    (b.answer_count = a.answer_count ∧ b.comment_count ≤ a.comment_count)))

/-- Value of the `findAll` queries: one row per post id (`group: ['id']`) that has
a joined tag and user, in the requested order. -/
def Store.findAllPosts (order : QueryOrder) (tagname : Option String) (s : Store) :
    List PostView × Store :=
  let groups := (s.posts.map (fun p => p.id)).dedup
  let rows := groups.filterMap fun id =>
    match (s.posts.filter (fun p => p.id = id)).flatMap (s.joined tagname) with
    | [] => none
    | r :: _ => some (s.view r)
  match order with
  | .createdDesc => (rows.insertionSort newerFirst, s)
  | .topDesc => (rows.insertionSort topFirst, s)

/-- The call `db.transaction()`: when it resolves, a transaction is open. -/
def dbTransaction (g : Gateway) : Run (Settled Unit) := fun w =>
  match g.beginTx with
  | .ok =>
    .value (.resolved ()) { w with tx := .active, trace := w.trace ++ [.stmt .beginTx true] }
  | .rejects error =>
    .value (.rejected error) { w with trace := w.trace ++ [.stmt .beginTx false] }

/-- The call `transaction.commit()`. -/
def transactionCommit (g : Gateway) : Run (Settled Unit) := fun w =>
  match g.commit with
  | .ok =>
    .value (.resolved ()) { w with tx := .committed, trace := w.trace ++ [.stmt .commit true] }
  | .rejects error =>
    .value (.rejected error) { w with trace := w.trace ++ [.stmt .commit false] }

/-- The call `transaction.rollback()`: when it resolves, the transaction is rolled
back. No statement of the operation belongs to it, so the store keeps what the
statements wrote. -/
def transactionRollback (g : Gateway) : Run (Settled Unit) := fun w =>
  match g.rollback with
  | .ok =>
    .value (.resolved ())
      { w with tx := .rolledBack, trace := w.trace ++ [.stmt .rollback true] }
  | .rejects error =>
    .value (.rejected error) { w with trace := w.trace ++ [.stmt .rollback false] }

/-- Reads the local variable `transaction`. -/
def transactionAssigned : Run Bool := fun w => .value w.transaction w

/-- The call `PostsModelSequelize.create({ title, body, user_id })`. -/
def postsCreate (g : Gateway) (title body : String) (user_id : Nat) : Run (Settled Post) :=
  storageCall g.postInsert (.insertPost title body user_id)
    (Store.insertPost g.clock title body user_id)

/-- The call `TagsModelSequelize.findOrCreate({ where, defaults })`; it resolves to
the pair of the tag and of the creation flag. -/
def tagsFindOrCreate (g : Gateway) (tagname description : String) :
    Run (Settled (Tag × Bool)) :=
  storageCall g.tagFindOrCreate (.findOrCreateTag tagname description)
    (Store.findOrCreateTag tagname description)

/-- The call `PostTagModelSequelize.create({ post_id, tag_id })`. -/
def postTagCreate (g : Gateway) (post_id tag_id : Nat) : Run (Settled Unit) :=
  storageCall g.postTagInsert (.insertPostTag post_id tag_id)
    (Store.insertPostTag post_id tag_id)

/-- The call `PostTagModelSequelize.destroy({ where: { post_id: id } })`. -/
def postTagDestroy (g : Gateway) (id : Nat) : Run (Settled Unit) :=
  storageCall g.postTagDelete (.deletePostTags id) (Store.deletePostTags id)

/-- The call `AnswersModelSequelize.destroy({ where: { post_id: id } })`. -/
def answersDestroy (g : Gateway) (id : Nat) : Run (Settled Unit) :=
  storageCall g.answerDelete (.deleteAnswers id) (Store.deleteAnswers id)

/-- The call `CommentsModelSequelize.destroy({ where: { post_id: id } })`. -/
def commentsDestroy (g : Gateway) (id : Nat) : Run (Settled Unit) :=
  storageCall g.commentDelete (.deleteComments id) (Store.deleteComments id)

/-- The call `PostsModelSequelize.destroy({ where: { id } })`. -/
def postsDestroy (g : Gateway) (id : Nat) : Run (Settled Unit) :=
  storageCall g.postDelete (.deletePost id) (Store.deletePost id)

/-- The call `PostsModelSequelize.increment('views', { by: 1, where: { id } })`. -/
def postsIncrement (g : Gateway) (postId : Nat) : Run (Settled Unit) :=
  storageCall g.increment (.incrementViews postId) (Store.incrementViews postId)

/-- The call `PostsModelSequelize.findOne({ where: { id: postId }, ... })`. -/
def postsFindOne (g : Gateway) (postId : Nat) : Run (Settled PostView) :=
  storageCall g.findOne (.findOne postId) (Store.findOnePost postId)

/-- The call `PostsModelSequelize.findAll({ ... })`. -/
def postsFindAll (g : Gateway) (order : QueryOrder) (tagname : Option String) :
    Run (Settled (List PostView)) :=
  storageCall g.findAll (.findAll order tagname) (Store.findAllPosts order tagname)

/-! ## Helpers of `../helpers/conditionalHelper` -/

/-- The helpers of `../helpers/conditionalHelper` are not among the sources. What
`isArrayEmpty` does with `undefined` (the value awaited after a rejected query) is
taken as a parameter: `none` when it throws, `some b` when it returns `b`. -/
structure Helpers where
  isArrayEmptyOfUndefined : Option Bool
deriving DecidableEq, Repr

/-- Modelled from the spec: `isArrayEmpty` of `../helpers/conditionalHelper` (not
among the sources). On an array it tells whether the query returned zero rows
(section 4.2: "Fails with EmptyResult if zero rows"); on `undefined` it does what
the parameter says (`none`: it throws). -/
def isArrayEmpty (h : Helpers) (queryResult : Option (List PostView)) : Option Bool :=
  match queryResult with
  | some rows => some rows.isEmpty
  | none => h.isArrayEmptyOfUndefined

/-- Modelled from the spec: `isNull` of `../helpers/conditionalHelper` (not among
the sources) tells whether a column value is NULL. -/
def isNull (value : Option Nat) : Bool := value.isNone

/-! ## The operations -/

/-- The operation `exports.create = async (newPost, result, tagDescription)`. -/
def create (g : Gateway) (newPost : NewPost) (tagDescription : String) : Run Unit :=
  tryCatch
    (do
      -- transaction = await db.transaction();
      await (dbTransaction g)
      -- const post = await PostsModelSequelize.create(...).catch(...);
      let post ← awaitCatch (postsCreate g newPost.title newPost.body newPost.user_id)
        (fun _ => result (some (responseHandler false (some 500) "Something went wrong" .null)) none)
      -- const [tag] = await TagsModelSequelize.findOrCreate(...).catch(...);
      let found ← awaitCatch (tagsFindOrCreate g newPost.tagname tagDescription)
        (fun _ => result (some (responseHandler false (some 500) "Something went wrong" .null)) none)
      match found with
      | none => throwJs -- destructuring `null` throws
      | some (tag, _) =>
        -- await PostTagModelSequelize.create({ post_id: post.id, tag_id: tag.id }).catch(...);
        match post with
        | none => throwJs -- `post.id` of `null` throws
        | some post => do
          let _ ← awaitCatch (postTagCreate g post.id tag.id)
            (fun _ =>
              result (some (responseHandler false (some 500) "Something went wrong" .null)) none)
          result none (some (responseHandler true (some 200) "Post Created" (.postId post.id)))
          await (transactionCommit g))
    (do
      result (some (responseHandler false (some 500) "Something went wrong" .null)) none
      if (← transactionAssigned) then
        await (transactionRollback g))

/-- The operation `exports.remove = async (id, result)`. -/
def remove (g : Gateway) (id : Nat) : Run Unit :=
  tryCatch
    (do
      await (dbTransaction g)
      await (postTagDestroy g id)
      await (answersDestroy g id)
      await (commentsDestroy g id)
      await (postsDestroy g id)
      result none (some (responseHandler true (some 200) "Post Removed" .null))
      await (transactionCommit g))
    (do
      result (some (responseHandler false (some 500) "Something went wrong" .null)) none
      if (← transactionAssigned) then
        await (transactionRollback g))

/-- The envelope the `.catch` of the `increment` call of `retrieveOne` builds from
the error it receives. -/
def incrementFailure (error : Rejection) : Response :=
  responseHandler false
    (match error with
     | some e => e.statusCode
     | none => some 404)
    (match error with
     | some e => e.message
     | none => "There isn't any post by this id")
    .null

/-- The operation `exports.retrieveOne = async (postId, result)`. -/
def retrieveOne (g : Gateway) (postId : Nat) : Run Unit := do
  let _ ← awaitCatch (postsIncrement g postId)
    (fun error => result (some (incrementFailure error)) none)
  let queryResult ← awaitCatch (postsFindOne g postId)
    (fun _ => result (some (responseHandler false (some 500) "Something went wrong!" .null)) none)
  match queryResult with
  | none => throwJs -- `queryResult.dataValues` of `undefined` throws
  | some row =>
    if isNull row.id then
      result (some (responseHandler false (some 404) "There isn't any post by this id" .null)) none
    else
      result none (some (responseHandler true (some 200) "Success" (.row row)))

/-- The common body of `retrieveAll`, `retrieveAllTop` and `retrieveAllTag`, which
differ in the query only. -/
def retrieveMany (h : Helpers) (g : Gateway) (order : QueryOrder) (tagname : Option String) :
    Run Unit := do
  let queryResult ← awaitCatch (postsFindAll g order tagname)
    (fun _ => result (some (responseHandler false (some 500) "Something went wrong!" .null)) none)
  match isArrayEmpty h queryResult with
  | none => throwJs
  | some true =>
    result (some (responseHandler false (some 404) "There are no posts" .null)) none
  | some false =>
    result none (some (responseHandler true (some 200) "Success"
      (match queryResult with
       | some rows => .rows rows
       | none => .undefined)))

/-- The operation `exports.retrieveAll = async (result)`. -/
def retrieveAll (h : Helpers) (g : Gateway) : Run Unit :=
  retrieveMany h g .createdDesc none

/-- The operation `exports.retrieveAllTop = async (result)`. -/
def retrieveAllTop (h : Helpers) (g : Gateway) : Run Unit :=
  retrieveMany h g .topDesc none

/-- The operation `exports.retrieveAllTag = async (tagName, result)`. -/
def retrieveAllTag (h : Helpers) (g : Gateway) (tagName : String) : Run Unit :=
  retrieveMany h g .createdDesc (some tagName)

/-- Runs an operation on a store. -/
def run (op : Run Unit) (db : Store) : Outcome Unit := op (World.init db)

/-! ## Sample inputs -/

/-- The gateway whose calls all resolve. -/
def healthy (clock : Nat) : Gateway :=
  { beginTx := .ok, postInsert := .ok, tagFindOrCreate := .ok, postTagInsert := .ok,
    postTagDelete := .ok, answerDelete := .ok, commentDelete := .ok, postDelete := .ok,
    commit := .ok, rollback := .ok, increment := .ok, findOne := .ok, findAll := .ok,
    clock := clock }

/-- A store with a tagged post (two answers, one comment), an untagged post and one
user. -/
def sampleStore : Store :=
  { posts := [{ id := 1, title := "Hello", body := "World", user_id := 7, views := 3,
                created_at := 10, updated_at := 10 },
              { id := 2, title := "Untagged", body := "No tag", user_id := 7, views := 0,
                created_at := 11, updated_at := 11 }],
    tags := [{ id := 1, tagname := "intro", description := "Intro posts" }],
    postTags := [{ post_id := 1, tag_id := 1 }],
    answers := [{ id := 1, post_id := 1 }, { id := 2, post_id := 1 }],
    comments := [{ id := 1, post_id := 1 }],
    users := [{ id := 7, username := "ann", gravatar := "a.png" }] }

/-- A store with one user and no post. -/
def emptyStore : Store :=
  { posts := [], tags := [], postTags := [], answers := [], comments := [],
    users := [{ id := 7, username := "ann", gravatar := "a.png" }] }

/-- The post of the scenario of the spec. -/
def helloPost : NewPost :=
  { title := "Hello", body := "World", user_id := 7, tagname := "intro" }

/-- An error of the storage layer. -/
def refused : StorageError :=
  { statusCode := some 503, message := "connect ECONNREFUSED 10.0.0.5:3306" }

/-- Another error of the storage layer. -/
def deadlock : StorageError :=
  { statusCode := none, message := "Deadlock found when trying to get lock" }

/-! ## Lemmas on the store -/

theorem findOrCreateTag_tagname (s : Store) (tagname description : String) :
    (s.findOrCreateTag tagname description).1.1.tagname = tagname := by
  unfold Store.findOrCreateTag
  split
  · next t ht => simpa using List.find?_some ht
  · rfl

theorem findOrCreateTag_fresh (s : Store) (tagname description : String)
    (hnone : ∀ t ∈ s.tags, t.tagname ≠ tagname) :
    (s.findOrCreateTag tagname description).1.1.description = description ∧
      (s.findOrCreateTag tagname description).1.2 = true := by
  unfold Store.findOrCreateTag
  split
  · next t ht =>
    have h1 := List.find?_some ht
    have h2 := List.mem_of_find?_eq_some ht
    exact absurd (by simpa using h1) (hnone t h2)
  · exact ⟨rfl, rfl⟩

theorem findOrCreateTag_reuse (s : Store) (tagname description : String)
    (hsome : ∃ t ∈ s.tags, t.tagname = tagname) :
    (s.findOrCreateTag tagname description).1.1 ∈ s.tags ∧
      (s.findOrCreateTag tagname description).2 = s := by
  unfold Store.findOrCreateTag
  split
  · next t ht => exact ⟨List.mem_of_find?_eq_some ht, rfl⟩
  · next hnone =>
    obtain ⟨t, ht, hname⟩ := hsome
    have := List.find?_eq_none.mp hnone t ht
    simp [hname] at this

theorem findOrCreateTag_posts (s : Store) (tagname description : String) :
    (s.findOrCreateTag tagname description).2.posts = s.posts := by
  unfold Store.findOrCreateTag
  split <;> rfl

/-! ## create -/

/-- C1: a run of `create` in which the transaction opens, the Post insert and the Tag
find-or-create succeed and the PostTag insert fails ends with the transaction
committed, and the callback receives the failure envelope and then the success
envelope 'Post Created'. -/
theorem create_postTag_failure_commits (db : Store) (newPost : NewPost)
    (tagDescription : String) (clock : Nat) (error : Rejection) :
    (run (create { healthy clock with postTagInsert := .rejects error } newPost tagDescription)
        db).world.tx = .committed ∧
    (run (create { healthy clock with postTagInsert := .rejects error } newPost tagDescription)
        db).world.calls =
      [(some (responseHandler false (some 500) "Something went wrong" .null), none),
       (none, some (responseHandler true (some 200) "Post Created" (.postId db.nextPostId)))] :=
  ⟨rfl, rfl⟩

/-- C2: when the PostTag insert of `create` fails, the store after the call holds the
Post row the call inserted, in a committed transaction: it is not the store from
before the call. -/
theorem create_postTag_failure_leaves_rows (db : Store) (newPost : NewPost)
    (tagDescription : String) (clock : Nat) (error : Rejection) :
    (run (create { healthy clock with postTagInsert := .rejects error } newPost tagDescription)
        db).world.db.posts =
      db.posts ++ [{ id := db.nextPostId, title := newPost.title, body := newPost.body,
                     user_id := newPost.user_id, views := 0, created_at := clock,
                     updated_at := clock }] ∧
    (run (create { healthy clock with postTagInsert := .rejects error } newPost tagDescription)
        db).world.tx = .committed ∧
    (run (create { healthy clock with postTagInsert := .rejects error } newPost tagDescription)
        db).world.db ≠ db := by
  have hposts : (run (create { healthy clock with postTagInsert := .rejects error } newPost
      tagDescription) db).world.db.posts =
      ((db.insertPost clock newPost.title newPost.body newPost.user_id).2.findOrCreateTag
        newPost.tagname tagDescription).2.posts := rfl
  rw [findOrCreateTag_posts] at hposts
  refine ⟨hposts, rfl, ?_⟩
  intro h
  have hlen := congrArg List.length hposts
  rw [h] at hlen
  simp [Store.insertPost] at hlen

/-- C3: when the Post insert of `create` fails and every other storage call succeeds,
the callback is invoked twice. -/
theorem create_postInsert_failure_calls_back_twice (db : Store) (newPost : NewPost)
    (tagDescription : String) (clock : Nat) (error : Rejection) :
    (run (create { healthy clock with postInsert := .rejects error } newPost tagDescription)
        db).world.calls =
      [(some (responseHandler false (some 500) "Something went wrong" .null), none),
       (some (responseHandler false (some 500) "Something went wrong" .null), none)] :=
  rfl

/-- C5: when the three writes of `create` succeed and the commit fails, the callback
has received 'Post Created' before the commit was attempted; it then receives the
failure envelope, and the transaction ends rolled back, not committed. -/
theorem create_reports_success_before_failed_commit (db : Store) (newPost : NewPost)
    (tagDescription : String) (clock : Nat) (error : Rejection) :
    (run (create { healthy clock with commit := .rejects error } newPost tagDescription)
        db).world.calls =
      [(none, some (responseHandler true (some 200) "Post Created" (.postId db.nextPostId))),
       (some (responseHandler false (some 500) "Something went wrong" .null), none)] ∧
    (run (create { healthy clock with commit := .rejects error } newPost tagDescription)
        db).world.tx = .rolledBack :=
  ⟨rfl, rfl⟩

theorem findOrCreateTag_of_none (s : Store) (tagname description : String)
    (hnone : ∀ t ∈ s.tags, t.tagname ≠ tagname) :
    s.findOrCreateTag tagname description =
      (({ id := s.nextTagId, tagname := tagname, description := description }, true),
       { s with tags := s.tags ++
          [{ id := s.nextTagId, tagname := tagname, description := description }] }) := by
  have hfind : s.tags.find? (fun t => decide (t.tagname = tagname)) = none := by
    rw [List.find?_eq_none]
    intro t ht
    simpa using hnone t ht
  simp [Store.findOrCreateTag, hfind]

theorem findOrCreateTag_of_some (s : Store) (tagname description : String) (tag : Tag)
    (hfind : s.tags.find? (fun t => decide (t.tagname = tagname)) = some tag) :
    s.findOrCreateTag tagname description = ((tag, false), s) := by
  simp [Store.findOrCreateTag, hfind]

/-- What a run of `create` leaves behind when the transaction opens and the three
writes succeed, in terms of the tag the find-or-create resolves to. -/
theorem create_success_world (db : Store) (g : Gateway) (newPost : NewPost)
    (tagDescription : String) (hb : g.beginTx = .ok) (hp : g.postInsert = .ok)
    (ht : g.tagFindOrCreate = .ok) (hpt : g.postTagInsert = .ok) :
    (run (create g newPost tagDescription) db).world.db =
      (Store.insertPostTag db.nextPostId
        ((db.insertPost g.clock newPost.title newPost.body newPost.user_id).2.findOrCreateTag
          newPost.tagname tagDescription).1.1.id
        ((db.insertPost g.clock newPost.title newPost.body newPost.user_id).2.findOrCreateTag
          newPost.tagname tagDescription).2).2 ∧
    (run (create g newPost tagDescription) db).world.trace.take 5 =
      [.stmt .beginTx true,
       .stmt (.insertPost newPost.title newPost.body newPost.user_id) true,
       .stmt (.findOrCreateTag newPost.tagname tagDescription) true,
       .stmt (.insertPostTag db.nextPostId
         ((db.insertPost g.clock newPost.title newPost.body newPost.user_id).2.findOrCreateTag
           newPost.tagname tagDescription).1.1.id) true,
       .callback none
         (some (responseHandler true (some 200) "Post Created" (.postId db.nextPostId)))] := by
  cases hc : g.commit <;> cases hr : g.rollback <;>
    simp [run, create, tryCatch, bind, Run.bind, await, awaitCatch, dbTransaction, postsCreate,
      tagsFindOrCreate, postTagCreate, storageCall, result, emit, transactionCommit,
      transactionRollback, transactionAssigned, World.transaction, World.init, Outcome.world,
      Store.insertPost, hb, hp, ht, hpt, hc, hr]

/-- C4: when the transaction opens and the Post insert, the Tag find-or-create and the
PostTag insert succeed, the first invocation of the callback is
`(null, {success:true, status:200, message:'Post Created', data: id of the inserted Post})`.
The run starts with the Post insert of `newPost`, the find-or-create for
`newPost.tagname` with description `tagDescription` and the PostTag insert linking
the new Post id to the id of the Tag found or created. When no Tag of that name
existed, the store gains the Post, a Tag with description `tagDescription` and the
PostTag row; when a Tag of that name existed, it gains the Post and the PostTag row
that links it to that Tag, and no Tag. -/
theorem create_success_links_post_and_tag (db : Store) (g : Gateway) (newPost : NewPost)
    (tagDescription : String) (hb : g.beginTx = .ok) (hp : g.postInsert = .ok)
    (ht : g.tagFindOrCreate = .ok) (hpt : g.postTagInsert = .ok) :
    ((run (create g newPost tagDescription) db).world.calls.head? =
        some (none, some (responseHandler true (some 200) "Post Created"
          (.postId db.nextPostId)))) ∧
    ((∀ t ∈ db.tags, t.tagname ≠ newPost.tagname) →
      (run (create g newPost tagDescription) db).world.trace.take 5 =
        [.stmt .beginTx true,
         .stmt (.insertPost newPost.title newPost.body newPost.user_id) true,
         .stmt (.findOrCreateTag newPost.tagname tagDescription) true,
         .stmt (.insertPostTag db.nextPostId db.nextTagId) true,
         .callback none
           (some (responseHandler true (some 200) "Post Created" (.postId db.nextPostId)))] ∧
      (run (create g newPost tagDescription) db).world.db =
        { db with
          posts := db.posts ++
            [{ id := db.nextPostId, title := newPost.title, body := newPost.body,
               user_id := newPost.user_id, views := 0, created_at := g.clock,
               updated_at := g.clock }],
          tags := db.tags ++
            [{ id := db.nextTagId, tagname := newPost.tagname,
               description := tagDescription }],
          postTags := db.postTags ++ [{ post_id := db.nextPostId, tag_id := db.nextTagId }] }) ∧
    (∀ tag : Tag, db.tags.find? (fun t => decide (t.tagname = newPost.tagname)) = some tag →
      (run (create g newPost tagDescription) db).world.trace.take 5 =
        [.stmt .beginTx true,
         .stmt (.insertPost newPost.title newPost.body newPost.user_id) true,
         .stmt (.findOrCreateTag newPost.tagname tagDescription) true,
         .stmt (.insertPostTag db.nextPostId tag.id) true,
         .callback none
           (some (responseHandler true (some 200) "Post Created" (.postId db.nextPostId)))] ∧
      (run (create g newPost tagDescription) db).world.db =
        { db with
          posts := db.posts ++
            [{ id := db.nextPostId, title := newPost.title, body := newPost.body,
               user_id := newPost.user_id, views := 0, created_at := g.clock,
               updated_at := g.clock }],
          postTags := db.postTags ++ [{ post_id := db.nextPostId, tag_id := tag.id }] }) := by
  obtain ⟨hdb, htrace⟩ := create_success_world db g newPost tagDescription hb hp ht hpt
  refine ⟨?_, ?_, ?_⟩
  · cases hc : g.commit <;> cases hr : g.rollback <;>
      simp [run, create, tryCatch, bind, Run.bind, await, awaitCatch, dbTransaction, postsCreate,
        tagsFindOrCreate, postTagCreate, storageCall, result, emit, transactionCommit,
        transactionRollback, transactionAssigned, World.transaction, World.init, Outcome.world,
        World.calls, Store.insertPost, hb, hp, ht, hpt, hc, hr]
  · intro hnone
    have hfoc := findOrCreateTag_of_none
      (db.insertPost g.clock newPost.title newPost.body newPost.user_id).2 newPost.tagname
      tagDescription hnone
    rw [hfoc] at hdb htrace
    exact ⟨htrace, hdb⟩
  · intro tag hfind
    have hfoc := findOrCreateTag_of_some
      (db.insertPost g.clock newPost.title newPost.body newPost.user_id).2 newPost.tagname
      tagDescription tag hfind
    rw [hfoc] at hdb htrace
    exact ⟨htrace, hdb⟩

/-- Witness of C4: the scenario of the spec, on a store without the tag 'intro'. -/
theorem create_success_links_post_and_tag_witness :
    (∀ t ∈ emptyStore.tags, t.tagname ≠ helloPost.tagname) ∧
    (run (create (healthy 5) helloPost "Intro posts") emptyStore).world.calls.head? =
      some (none, some (responseHandler true (some 200) "Post Created" (.postId 1))) ∧
    (run (create (healthy 5) helloPost "Intro posts") emptyStore).world.db.tags =
      [{ id := 1, tagname := "intro", description := "Intro posts" }] ∧
    (run (create (healthy 5) helloPost "Intro posts") emptyStore).world.db.postTags =
      [{ post_id := 1, tag_id := 1 }] :=
  ⟨by decide,
   (create_success_links_post_and_tag emptyStore (healthy 5) helloPost "Intro posts"
      rfl rfl rfl rfl).1,
   congrArg Store.tags
     ((create_success_links_post_and_tag emptyStore (healthy 5) helloPost "Intro posts"
        rfl rfl rfl rfl).2.1 (by decide)).2,
   congrArg Store.postTags
     ((create_success_links_post_and_tag emptyStore (healthy 5) helloPost "Intro posts"
        rfl rfl rfl rfl).2.1 (by decide)).2⟩

/-! ## remove -/

/-- C6: when the transaction opens and the four deletes of `remove` succeed, the
store afterwards has no PostTag, Answer or Comment row whose post_id is `id` and no
Post row whose id is `id`, and the first invocation of the callback is
`(null, {success:true, status:200, message:'Post Removed', data:null})`. -/
theorem remove_cascade (db : Store) (g : Gateway) (id : Nat)
    (hb : g.beginTx = .ok) (h1 : g.postTagDelete = .ok) (h2 : g.answerDelete = .ok)
    (h3 : g.commentDelete = .ok) (h4 : g.postDelete = .ok) :
    (∀ r ∈ (run (remove g id) db).world.db.postTags, r.post_id ≠ id) ∧
    (∀ r ∈ (run (remove g id) db).world.db.answers, r.post_id ≠ id) ∧
    (∀ r ∈ (run (remove g id) db).world.db.comments, r.post_id ≠ id) ∧
    (∀ p ∈ (run (remove g id) db).world.db.posts, p.id ≠ id) ∧
    (run (remove g id) db).world.calls.head? =
      some (none, some (responseHandler true (some 200) "Post Removed" .null)) := by
  have hdb : (run (remove g id) db).world.db =
      { db with
        posts := db.posts.filter (fun r => r.id ≠ id),
        postTags := db.postTags.filter (fun r => r.post_id ≠ id),
        answers := db.answers.filter (fun r => r.post_id ≠ id),
        comments := db.comments.filter (fun r => r.post_id ≠ id) } := by
    cases hc : g.commit <;> cases hr : g.rollback <;>
      simp [run, remove, tryCatch, bind, Run.bind, await, dbTransaction, postTagDestroy,
        answersDestroy, commentsDestroy, postsDestroy, storageCall, result, emit,
        transactionCommit, transactionRollback, transactionAssigned, World.transaction,
        World.init, Outcome.world, Store.deletePostTags, Store.deleteAnswers,
        Store.deleteComments, Store.deletePost, hb, h1, h2, h3, h4, hc, hr]
  have hcalls : (run (remove g id) db).world.calls.head? =
      some (none, some (responseHandler true (some 200) "Post Removed" .null)) := by
    cases hc : g.commit <;> cases hr : g.rollback <;>
      simp [run, remove, tryCatch, bind, Run.bind, await, dbTransaction, postTagDestroy,
        answersDestroy, commentsDestroy, postsDestroy, storageCall, result, emit,
        transactionCommit, transactionRollback, transactionAssigned, World.transaction,
        World.init, Outcome.world, World.calls, hb, h1, h2, h3, h4, hc, hr]
  rw [hdb]
  refine ⟨?_, ?_, ?_, ?_, hcalls⟩ <;>
    · intro r hr
      simpa using (List.mem_filter.mp hr).2

/-- Witness of C6: removing post 1 of the sample store, with the commit failing. -/
theorem remove_cascade_witness :
    (∀ r ∈ (run (remove { healthy 0 with commit := .rejects (some deadlock) } 1)
        sampleStore).world.db.postTags, r.post_id ≠ 1) ∧
    (∀ r ∈ (run (remove { healthy 0 with commit := .rejects (some deadlock) } 1)
        sampleStore).world.db.answers, r.post_id ≠ 1) ∧
    (∀ r ∈ (run (remove { healthy 0 with commit := .rejects (some deadlock) } 1)
        sampleStore).world.db.comments, r.post_id ≠ 1) ∧
    (∀ p ∈ (run (remove { healthy 0 with commit := .rejects (some deadlock) } 1)
        sampleStore).world.db.posts, p.id ≠ 1) ∧
    (run (remove { healthy 0 with commit := .rejects (some deadlock) } 1)
        sampleStore).world.calls.head? =
      some (none, some (responseHandler true (some 200) "Post Removed" .null)) :=
  remove_cascade sampleStore { healthy 0 with commit := .rejects (some deadlock) } 1
    rfl rfl rfl rfl rfl

/-! ## retrieveOne -/

/-- C7: when the `increment` call of `retrieveOne` is rejected with an error object,
the envelope the callback receives first carries the statusCode and the message of
that object; for the errors `refused` and `deadlock` the two envelopes differ, and
neither has status 500. -/
theorem retrieveOne_increment_failure_leaks_error :
    (∀ (db : Store) (postId clock : Nat) (e : StorageError),
      (run (retrieveOne { healthy clock with increment := .rejects (some e) } postId)
          db).world.calls.head? =
        some (some (responseHandler false e.statusCode e.message .null), none)) ∧
    (run (retrieveOne { healthy 0 with increment := .rejects (some refused) } 1)
        sampleStore).world.calls.head? =
      some (some (responseHandler false (some 503) "connect ECONNREFUSED 10.0.0.5:3306" .null),
        none) ∧
    (run (retrieveOne { healthy 0 with increment := .rejects (some deadlock) } 1)
        sampleStore).world.calls.head? =
      some (some (responseHandler false none "Deadlock found when trying to get lock" .null),
        none) ∧
    (run (retrieveOne { healthy 0 with increment := .rejects (some refused) } 1)
        sampleStore).world.calls ≠
      (run (retrieveOne { healthy 0 with increment := .rejects (some deadlock) } 1)
        sampleStore).world.calls := by
  refine ⟨?_, by decide, by decide, by decide⟩
  intro db postId clock e
  simp only [run, retrieveOne, bind, Run.bind, awaitCatch, postsIncrement, postsFindOne,
    storageCall, result, emit, World.init, healthy, incrementFailure]
  split <;> simp [World.calls, Outcome.world, emit]

/-- C8: when the `findOne` call of `retrieveOne` is rejected, the operation reports
the failure through the callback and then throws: the exception escapes. -/
theorem retrieveOne_findOne_failure_escapes (db : Store) (postId clock : Nat)
    (error : Rejection) :
    (run (retrieveOne { healthy clock with findOne := .rejects error } postId) db).escaped
      = true ∧
    (run (retrieveOne { healthy clock with findOne := .rejects error } postId) db).world.calls =
      [(some (responseHandler false (some 500) "Something went wrong!" .null), none)] :=
  ⟨rfl, rfl⟩

theorem joined_eq_nil_iff (s : Store) (tagname : Option String) (p : Post) :
    s.joined tagname p = [] ↔
      ∀ pt ∈ s.postTags, pt.post_id = p.id → ∀ t ∈ s.tags, t.id = pt.tag_id →
        (match tagname with
         | some n => decide (t.tagname = n)
         | none => true) = true → ∀ u ∈ s.users, u.id ≠ p.user_id := by
  simp only [Store.joined, List.flatMap_eq_nil_iff, List.map_eq_nil_iff, List.filter_eq_nil_iff,
    List.mem_filter, decide_eq_true_eq, Bool.and_eq_true, and_imp]

theorem matching_eq_nil_iff (s : Store) (postId : Nat) :
    s.matching postId = [] ↔ ∀ p ∈ s.posts, p.id = postId → s.joined none p = [] := by
  simp [Store.matching, List.flatMap_eq_nil_iff, List.mem_filter]

/-- Incrementing the views of a post changes no join: a read that matched nothing
before the increment matches nothing after it. -/
theorem matching_incrementViews (s : Store) (id postId : Nat) (h : s.matching postId = []) :
    (s.incrementViews id).2.matching postId = [] := by
  rw [matching_eq_nil_iff] at h ⊢
  intro p' hp' hid'
  simp only [Store.incrementViews, List.mem_map] at hp'
  obtain ⟨p, hp, rfl⟩ := hp'
  have hpid : (if p.id = id then { p with views := p.views + 1 } else p).id = p.id := by
    split <;> rfl
  have hpuser : (if p.id = id then { p with views := p.views + 1 } else p).user_id = p.user_id := by
    split <;> rfl
  have hj := h p hp (hpid ▸ hid')
  rw [joined_eq_nil_iff] at hj ⊢
  intro pt hpt hptid t ht htid htn u hu
  rw [hpuser]
  exact hj pt hpt (hptid.trans hpid) t ht htid htn u hu

/-- A post without a PostTag row is matched by no read. -/
theorem matching_eq_nil_of_untagged (s : Store) (postId : Nat)
    (h : ∀ pt ∈ s.postTags, pt.post_id ≠ postId) : s.matching postId = [] := by
  rw [matching_eq_nil_iff]
  intro p _ hid
  rw [joined_eq_nil_iff]
  intro pt hpt hptid
  exact absurd (hptid.trans hid) (h pt hpt)

theorem findOnePost_of_no_match (s : Store) (postId : Nat) (h : s.matching postId = []) :
    s.findOnePost postId = (nullView, s) := by
  simp [Store.findOnePost, h]

/-- C10: when the single-row read of `retrieveOne` succeeds and matches no post
joined to a tag and a user (in particular for a post without a tag), the operation
returns normally, its last invocation of the callback is
`({success:false, status:404, message:"There isn't any post by this id", data:null}, null)`
and no invocation carries a success envelope. -/
theorem retrieveOne_no_match_not_found (db : Store) (g : Gateway) (postId : Nat)
    (hq : g.findOne = .ok) (hno : db.matching postId = []) :
    (run (retrieveOne g postId) db).world.calls.getLast? =
      some (some (responseHandler false (some 404) "There isn't any post by this id" .null),
        none) ∧
    (∀ c ∈ (run (retrieveOne g postId) db).world.calls, c.2 = none) ∧
    (run (retrieveOne g postId) db).escaped = false := by
  cases hi : g.increment with
  | ok =>
    have hno2 := findOnePost_of_no_match _ postId (matching_incrementViews db postId postId hno)
    simp [run, retrieveOne, bind, Run.bind, awaitCatch, postsIncrement, postsFindOne,
      storageCall, result, emit, World.init, World.calls, Outcome.world, Outcome.escaped, hq, hi,
      hno2, isNull, nullView]
  | rejects e =>
    have hno2 := findOnePost_of_no_match db postId hno
    simp [run, retrieveOne, bind, Run.bind, awaitCatch, postsIncrement, postsFindOne,
      storageCall, result, emit, World.init, World.calls, Outcome.world, Outcome.escaped, hq, hi,
      hno2, isNull, nullView]

/-- Witness of C10: post 2 of the sample store has no tag. -/
theorem retrieveOne_no_match_not_found_witness :
    sampleStore.matching 2 = [] ∧
    (run (retrieveOne (healthy 0) 2) sampleStore).world.calls.getLast? =
      some (some (responseHandler false (some 404) "There isn't any post by this id" .null),
        none) ∧
    (∀ c ∈ (run (retrieveOne (healthy 0) 2) sampleStore).world.calls, c.2 = none) ∧
    (run (retrieveOne (healthy 0) 2) sampleStore).escaped = false :=
  ⟨by decide, retrieveOne_no_match_not_found sampleStore (healthy 0) 2 rfl (by decide)⟩

/-! ## retrieveAll, retrieveAllTop, retrieveAllTag -/

theorem retrieveMany_calls (h : Helpers) (g : Gateway) (order : QueryOrder)
    (tagname : Option String) (db : Store) (hq : g.findAll = .ok) :
    (run (retrieveMany h g order tagname) db).world.calls =
      if (db.findAllPosts order tagname).1 = [] then
        [(some (responseHandler false (some 404) "There are no posts" .null), none)]
      else
        [(none, some (responseHandler true (some 200) "Success"
          (.rows (db.findAllPosts order tagname).1)))] := by
  cases hrows : (db.findAllPosts order tagname).1 with
  | nil =>
    simp [run, retrieveMany, bind, Run.bind, awaitCatch, postsFindAll, storageCall, result, emit,
      World.init, World.calls, Outcome.world, isArrayEmpty, hq, hrows]
  | cons r rs =>
    simp [run, retrieveMany, bind, Run.bind, awaitCatch, postsFindAll, storageCall, result, emit,
      World.init, World.calls, Outcome.world, isArrayEmpty, hq, hrows]

theorem retrieveMany_not_found_iff (h : Helpers) (g : Gateway) (order : QueryOrder)
    (tagname : Option String) (db : Store) (hq : g.findAll = .ok) :
    ((run (retrieveMany h g order tagname) db).world.calls =
        [(some (responseHandler false (some 404) "There are no posts" .null), none)] ↔
      (db.findAllPosts order tagname).1 = []) ∧
    ((db.findAllPosts order tagname).1 ≠ [] →
      (run (retrieveMany h g order tagname) db).world.calls =
        [(none, some (responseHandler true (some 200) "Success"
          (.rows (db.findAllPosts order tagname).1)))]) := by
  rw [retrieveMany_calls h g order tagname db hq]
  by_cases hrows : (db.findAllPosts order tagname).1 = []
  · simp [hrows]
  · simp [hrows]

/-- C9: for `retrieveAll`, `retrieveAllTop` and `retrieveAllTag`, when the query
succeeds, the callback is invoked with
`({success:false, status:404, message:'There are no posts', data:null}, null)` exactly
when the query returned no row, and otherwise with
`(null, {success:true, status:200, message:'Success', data: the returned rows})`. -/
theorem retrieveAll_not_found_iff_no_rows (h : Helpers) (g : Gateway) (db : Store)
    (tagName : String) (hq : g.findAll = .ok) :
    (((run (retrieveAll h g) db).world.calls =
        [(some (responseHandler false (some 404) "There are no posts" .null), none)] ↔
      (db.findAllPosts .createdDesc none).1 = []) ∧
     ((db.findAllPosts .createdDesc none).1 ≠ [] →
      (run (retrieveAll h g) db).world.calls =
        [(none, some (responseHandler true (some 200) "Success"
          (.rows (db.findAllPosts .createdDesc none).1)))])) ∧
    (((run (retrieveAllTop h g) db).world.calls =
        [(some (responseHandler false (some 404) "There are no posts" .null), none)] ↔
      (db.findAllPosts .topDesc none).1 = []) ∧
     ((db.findAllPosts .topDesc none).1 ≠ [] →
      (run (retrieveAllTop h g) db).world.calls =
        [(none, some (responseHandler true (some 200) "Success"
          (.rows (db.findAllPosts .topDesc none).1)))])) ∧
    (((run (retrieveAllTag h g tagName) db).world.calls =
        [(some (responseHandler false (some 404) "There are no posts" .null), none)] ↔
      (db.findAllPosts .createdDesc (some tagName)).1 = []) ∧
     ((db.findAllPosts .createdDesc (some tagName)).1 ≠ [] →
      (run (retrieveAllTag h g tagName) db).world.calls =
        [(none, some (responseHandler true (some 200) "Success"
          (.rows (db.findAllPosts .createdDesc (some tagName)).1)))])) :=
  ⟨retrieveMany_not_found_iff h g .createdDesc none db hq,
   retrieveMany_not_found_iff h g .topDesc none db hq,
   retrieveMany_not_found_iff h g .createdDesc (some tagName) db hq⟩

/-- Witness of C9: on the sample store the tag 'nonexistent' selects no post, and
the unfiltered queries return the one tagged post. -/
theorem retrieveAll_not_found_iff_no_rows_witness :
    (sampleStore.findAllPosts .createdDesc (some "nonexistent")).1 = [] ∧
    (run (retrieveAllTag { isArrayEmptyOfUndefined := none } (healthy 0) "nonexistent")
        sampleStore).world.calls =
      [(some (responseHandler false (some 404) "There are no posts" .null), none)] ∧
    (run (retrieveAll { isArrayEmptyOfUndefined := none } (healthy 0)) sampleStore).world.calls =
      [(none, some (responseHandler true (some 200) "Success"
        (.rows (sampleStore.findAllPosts .createdDesc none).1)))] :=
  ⟨by decide,
   (retrieveAll_not_found_iff_no_rows { isArrayEmptyOfUndefined := none } (healthy 0)
      sampleStore "nonexistent" rfl).2.2.1.mpr (by decide),
   (retrieveAll_not_found_iff_no_rows { isArrayEmptyOfUndefined := none } (healthy 0)
      sampleStore "nonexistent" rfl).1.2 (by decide)⟩

end PostsRepository
